import Mathlib

/-!
Shallow embedding of the vladobot daily-digest pipeline.

The embedding follows the TypeScript sources:
* `storage.ts` (the `DatabaseManager` published in full inside `DEPLOY_FIX.md`,
  the only copy of the storage layer in the repository): tables as lists,
  the date-range query, transcript insertion with the
  `UNIQUE(message_id, file_id)` constraint, opt-out updates.
* `summarizer.ts` (`DailySummarizer`): the day window, opt-out filtering,
  transcript attachment, the empty-state template, `shouldGenerateSummary`.
* `llm.ts` (`FallbackProvider`, `LLMProviderFactory`): the deterministic
  fallback digest and the provider choice.
* `scheduler.ts` (`SchedulerService`): the in-memory cron-job registry,
  `scheduleChat` / `unscheduleChat`, `executeDailyReport`,
  `validateTimeFormat`.
* `stt.ts` (`SpeechToTextService.processAudioMessage`): the
  check-before-transcribe idempotent write path.

Timestamps: `created_at` is the stored text itself.  `insertMessage` never
supplies it, so SQLite's `DEFAULT CURRENT_TIMESTAMP` writes the format
`YYYY-MM-DD HH:MM:SS`, while the range query's bound parameters are
`toISOString()` texts of the form `YYYY-MM-DDTHH:MM:SS.sssZ` (the
deployment container configures no timezone, so the process clock is UTC
and the `setHours` local endpoints of one day render with that day's own
date before the `T`).  The SQL comparisons use SQLite's BINARY collation —
bytewise text comparison — embedded here as codepoint-lexicographic
comparison, which coincides with it on these ASCII strings.  External
effects (the OpenAI call, Telegram sends, Whisper) are passed as explicit
function/value parameters and their outcomes as `Except`/`Option` values.
-/

deriving instance DecidableEq for Except

namespace Vladobot

/-! ## Data model (storage.ts interfaces and schema) -/

inductive MessageType
  | text | photo | video | voice | audio | video_note | sticker | document
deriving DecidableEq, Repr

structure Chat where
  chat_id : String
  title : String
  report_time : String
  timezone : String
  target_username : String
  is_active : Bool
deriving DecidableEq, Repr

structure User where
  user_id : String
  username : Option String
  first_name : String
  last_name : Option String
  is_opted_out : Bool
deriving DecidableEq, Repr

structure Message where
  chat_id : String
  message_id : String
  user_id : String
  message_type : MessageType
  content : Option String
  file_id : Option String
  reply_to_message_id : Option String
  /-- the stored `created_at` text; rows written by `insertMessage` carry
      SQLite's `DEFAULT CURRENT_TIMESTAMP` format `YYYY-MM-DD HH:MM:SS`. -/
  created_at : String
deriving DecidableEq, Repr

structure Transcript where
  message_id : String
  file_id : String
  transcript_text : String
  language : Option String
  duration : Option Nat
deriving DecidableEq, Repr

/-- The database: one list per table, in insertion order. -/
structure DB where
  chats : List Chat
  users : List User
  messages : List Message
  transcripts : List Transcript
deriving DecidableEq, Repr

/-- A row of the `messages JOIN users` query: the message columns plus the
    author columns selected by `getMessagesForDateRange`. -/
structure MessageRow where
  msg : Message
  username : Option String
  first_name : String
  last_name : Option String
  is_opted_out : Bool
deriving DecidableEq, Repr

/-! ## Storage operations (DatabaseManager) -/

def DB.getChat (db : DB) (chatId : String) : Option Chat :=
  db.chats.find? (fun c => c.chat_id == chatId)

def DB.getUser (db : DB) (userId : String) : Option User :=
  db.users.find? (fun u => u.user_id == userId)

/-- Embedding of `UPDATE users SET is_opted_out = ? WHERE user_id = ?`. -/
def DB.setUserOptOut (db : DB) (userId : String) (b : Bool) : DB :=
  { db with users := db.users.map (fun u =>
      if u.user_id == userId then { u with is_opted_out := b } else u) }

/-- Bytewise comparison of two character lists, the BINARY collation SQLite
    applies to TEXT operands; on the ASCII timestamp and bound strings
    compared here, the bytewise order of the UTF-8 encodings and this
    codepoint order coincide. -/
def charListLt : List Char → List Char → Bool
  | [], [] => false
  | [], _ :: _ => true
  | _ :: _, [] => false
  | a :: as, b :: bs =>
    if a.toNat < b.toNat then true
    else if b.toNat < a.toNat then false
    else charListLt as bs

/-- SQLite `<` on two TEXT values under BINARY collation. -/
def sqliteTextLt (s t : String) : Bool := charListLt s.data t.data

/-- SQLite `<=` on two TEXT values (`s <= t`, used for `t >= s`). -/
def sqliteTextLe (s t : String) : Bool := !(sqliteTextLt t s)

/-- Stable insertion of `x` into a list ascending under `le`: `x` is placed
    before the first strictly greater element, after equal keys. -/
def insertByLe (le : α → α → Bool) (x : α) : List α → List α
  | [] => [x]
  | y :: ys => if le x y then x :: y :: ys else y :: insertByLe le x ys

/-- Stable sort ascending under `le`; embeds `ORDER BY`. -/
def sortByLe (le : α → α → Bool) : List α → List α
  | [] => []
  | x :: xs => insertByLe le x (sortByLe le xs)

/-- The `WHERE` clause of `getMessagesForDateRange`:
    `m.chat_id = ? AND m.created_at >= ? AND m.created_at < ?` — TEXT
    comparisons of the stored `created_at` against the bound parameters
    under BINARY collation.  Note the strict `<` on the upper bound. -/
def msgInRange (chatId : String) (startTs endTs : String) (m : Message) : Bool :=
  m.chat_id == chatId && sqliteTextLe startTs m.created_at &&
    sqliteTextLt m.created_at endTs

/-- Embedding of the `JOIN users u ON m.user_id = u.user_id`: a message with no matching user
    row produces no row (inner join). -/
def DB.joinAuthor (db : DB) (m : Message) : Option MessageRow :=
  (db.getUser m.user_id).map (fun u =>
    { msg := m, username := u.username, first_name := u.first_name,
      last_name := u.last_name, is_opted_out := u.is_opted_out })

/-- Embedding of `SELECT m.*, u.username, u.first_name, u.last_name, u.is_opted_out
     FROM messages m JOIN users u ON m.user_id = u.user_id
     WHERE m.chat_id = ? AND m.created_at >= ? AND m.created_at < ?
     ORDER BY m.created_at ASC` -/
def DB.getMessagesForDateRange (db : DB) (chatId : String) (startTs endTs : String) :
    List MessageRow :=
  sortByLe (fun a b => sqliteTextLe a.msg.created_at b.msg.created_at)
    ((db.messages.filter (msgInRange chatId startTs endTs)).filterMap db.joinAuthor)

def DB.getTranscript (db : DB) (messageId fileId : String) : Option Transcript :=
  db.transcripts.find? (fun t => t.message_id == messageId && t.file_id == fileId)

inductive SqlError
  | uniqueViolation
deriving DecidableEq, Repr

/-- Embedding of `INSERT INTO transcripts ...` — a plain insert; the schema's
    `UNIQUE(message_id, file_id)` constraint rejects a duplicate key and
    leaves the table unchanged. -/
def DB.insertTranscript (db : DB) (t : Transcript) : Except SqlError DB :=
  if (db.getTranscript t.message_id t.file_id).isSome then
    .error .uniqueViolation
  else
    .ok { db with transcripts := db.transcripts ++ [t] }

/-! ## llm.ts: processed messages, providers, the fallback template -/

structure ProcessedUser where
  username : Option String
  firstName : String
  lastName : Option String
deriving DecidableEq, Repr

structure ProcessedMessage where
  id : String
  user : ProcessedUser
  type : MessageType
  content : Option String
  transcript : Option String
  timestamp : String
  replyTo : Option String
deriving DecidableEq, Repr

structure SummaryContext where
  chatTitle : String
  date : String
  totalMessages : Nat
  targetUsername : String
deriving DecidableEq, Repr

/-- JavaScript truthiness of an optional string: `null`/`undefined` and the
    empty string are falsy. -/
def optTruthy : Option String → Bool
  | some s => !(s == "")
  | none => false

/-- The statistics line of the fallback template
    (`📊 **Статистика:** ${context.totalMessages} сообщений за день`). -/
def fallbackStatsLine (totalMessages : Nat) : String :=
  "📊 **Статистика:** " ++ toString totalMessages ++ " сообщений за день"

/-- Embedding of `FallbackProvider.generateSummary`: the deterministic template digest;
    makes no call to the generative backend. -/
def FallbackProvider.generateSummary (messages : List ProcessedMessage)
    (ctx : SummaryContext) : String :=
  let textMessages := messages.filter (fun m => m.type == .text && optTruthy m.content)
  let voiceMessages := messages.filter (fun m =>
    (m.type == .voice || m.type == .video_note) && optTruthy m.transcript)
  let mediaMessages := messages.filter (fun m =>
    m.type == .photo || m.type == .video || m.type == .document)
  ctx.targetUsername ++
    (" Снова не прочитал чат, пес? Соси огрызки:\n\n📝 **Темы:** Обсуждение различных вопросов\n" ++
      (fallbackStatsLine ctx.totalMessages ++
        ("\n🎤 **Голосовые/кружки:** " ++ toString voiceMessages.length ++
          " аудиосообщений\n📎 **Медиа:** " ++ toString mediaMessages.length ++
          " файлов\n💬 **Текстовых:** " ++ toString textMessages.length ++
          " сообщений\n\n_Детальное саммари временно недоступно. Проверьте настройки OpenAI API._")))

inductive LLMProviderKind
  | openai
  | fallback
deriving DecidableEq, Repr

/-- Embedding of `LLMProviderFactory.getProvider`: probe OpenAI availability once and pick
    the provider; the fallback is chosen exactly when OpenAI is unavailable. -/
def LLMProviderFactory.getProvider (openaiAvailable : Bool) : LLMProviderKind :=
  if openaiAvailable then .openai else .fallback

/-- One provider call.  `openaiGen` is the external OpenAI chat-completion
    call (network; may error).  The returned `Nat` counts the calls made to
    the generative backend: `1` on the OpenAI path, `0` on the fallback
    path, which is deterministic and makes no external call. -/
def providerGenerateSummary (p : LLMProviderKind)
    (openaiGen : List ProcessedMessage → SummaryContext → Except String String)
    (messages : List ProcessedMessage) (ctx : SummaryContext) :
    Except String (String × Nat) :=
  match p with
  | .openai => (openaiGen messages ctx).map (fun s => (s, 1))
  | .fallback => .ok (FallbackProvider.generateSummary messages ctx, 0)

/-! ## summarizer.ts: DailySummarizer -/

/-- Gregorian calendar date `(year, month, day)` of epoch day `day` (days
    since 1970-01-01), the standard civil-from-days computation. -/
def civilFromDays (day : Nat) : Nat × Nat × Nat :=
  let z := day + 719468
  let era := z / 146097
  let doe := z % 146097
  let yoe := (doe - doe / 1460 + doe / 36524 - doe / 146096) / 365
  let y := yoe + era * 400
  let doy := doe - (365 * yoe + yoe / 4 - yoe / 100)
  let mp := (5 * doy + 2) / 153
  let d := doy - (153 * mp + 2) / 5 + 1
  let m := if mp < 10 then mp + 3 else mp - 9
  (if m ≤ 2 then y + 1 else y, m, d)

/-- Two-digit decimal rendering of a calendar field. -/
def pad2 (n : Nat) : String := if n < 10 then "0" ++ toString n else toString n

/-- The `YYYY-MM-DD` label of epoch day `day`. -/
def isoDateLabel (day : Nat) : String :=
  match civilFromDays day with
  | (y, m, d) => toString y ++ "-" ++ pad2 m ++ "-" ++ pad2 d

/-- Embeds `startOfDay = new Date(date); startOfDay.setHours(0, 0, 0, 0)`
    followed by `startOfDay.toISOString()`: with the process clock at UTC
    (the deployment configures no timezone), local midnight of day `date`
    renders as the day's own date label followed by `T00:00:00.000Z`. -/
def startOfDayIso (date : Nat) : String := isoDateLabel date ++ "T00:00:00.000Z"

/-- Embeds `endOfDay = new Date(date); endOfDay.setHours(23, 59, 59, 999)`
    followed by `endOfDay.toISOString()`. -/
def endOfDayIso (date : Nat) : String := isoDateLabel date ++ "T23:59:59.999Z"

def isAudioType (t : MessageType) : Bool :=
  t == .voice || t == .video_note || t == .audio

/-- The per-row processing loop of `getMessagesForDate`: build a
    `ProcessedMessage` and, for voice/video_note/audio rows carrying a
    `file_id`, attach the cached transcript if present. -/
def DailySummarizer.processRow (db : DB) (row : MessageRow) : ProcessedMessage :=
  { id := row.msg.message_id
    user := { username := row.username, firstName := row.first_name,
              lastName := row.last_name }
    type := row.msg.message_type
    content := row.msg.content
    transcript :=
      match row.msg.file_id with
      | some fid =>
        if isAudioType row.msg.message_type then
          (db.getTranscript row.msg.message_id fid).map (fun t => t.transcript_text)
        else none
      | none => none
    timestamp := row.msg.created_at
    -- `msg.reply_to_message_id || undefined` (empty string is falsy)
    replyTo := row.msg.reply_to_message_id.bind (fun s =>
      if s == "" then none else some s) }

structure ProcessedMessageData where
  messages : List ProcessedMessage
  totalCount : Nat
  rangeStart : String
  rangeEnd : String
deriving DecidableEq, Repr

/-- Embedding of `DailySummarizer.getMessagesForDate`: pull the day window, drop rows of
    opted-out authors, process the remainder; `totalCount` is the size of
    the unfiltered query result. -/
def DailySummarizer.getMessagesForDate (db : DB) (chatId : String) (date : Nat) :
    ProcessedMessageData :=
  let startOfDay := startOfDayIso date
  let endOfDay := endOfDayIso date
  let rawMessages := db.getMessagesForDateRange chatId startOfDay endOfDay
  let filteredMessages := rawMessages.filter (fun r => !r.is_opted_out)
  { messages := filteredMessages.map (DailySummarizer.processRow db)
    totalCount := rawMessages.length
    rangeStart := startOfDay
    rangeEnd := endOfDay }

/-- Embedding of `DailySummarizer.shouldGenerateSummary`: the filtered message list is
    non-empty. -/
def DailySummarizer.shouldGenerateSummary (db : DB) (chatId : String) (date : Nat) :
    Bool :=
  (DailySummarizer.getMessagesForDate db chatId date).messages.length > 0

/-- Embedding of `DailySummarizer.generateEmptySummary`: the fixed empty-state template
    (the source file stores it with a damaged encoding; the text is the
    UTF-8 it decodes from, as the prompt in `llm.ts` shows). -/
def DailySummarizer.generateEmptySummary (targetUsername : String) : String :=
  targetUsername ++
    " Снова не прочитал чат, пес? Соси огрызки:\n\n📝 **Темы:** Никаких обсуждений\n📊 **Статистика:** 0 сообщений за день\n🎤 **Голосовые/кружки:** Нет\n📎 **Медиа:** Нет\n💬 **Текстовых:** Нет\n\n_Сегодня в чате было тихо. Возможно, все заняты важными делами!_ 😴"

inductive SummError
  | chatNotFound (chatId : String)
  | backend (msg : String)
deriving DecidableEq, Repr

/-- Models `date.toLocaleDateString(ru-RU)` — an opaque label; no claim reads it. -/
def ruDateLabel (date : Nat) : String := toString date

/-- Embedding of `DailySummarizer.generateDailySummary`.  Returns the digest text and the
    number of generative-backend calls made, or the error it rethrows. -/
def DailySummarizer.generateDailySummary (db : DB) (chatId : String) (date : Nat)
    (provider : LLMProviderKind)
    (openaiGen : List ProcessedMessage → SummaryContext → Except String String) :
    Except SummError (String × Nat) :=
  match db.getChat chatId with
  | none => .error (.chatNotFound chatId)
  | some chat =>
    let data := DailySummarizer.getMessagesForDate db chatId date
    if data.messages.length = 0 then
      .ok (DailySummarizer.generateEmptySummary chat.target_username, 0)
    else
      let ctx : SummaryContext :=
        { chatTitle := chat.title, date := ruDateLabel date,
          totalMessages := data.totalCount, targetUsername := chat.target_username }
      match providerGenerateSummary provider openaiGen data.messages ctx with
      | .ok r => .ok r
      | .error e => .error (.backend e)

/-! ## stt.ts: SpeechToTextService.processAudioMessage -/

/-- The external circumstances of one transcription attempt: the size-limit
    check on the downloaded file, and the Whisper result (`none` when
    conversion or transcription failed — those errors are caught and
    surface as `null`). -/
structure SttEnv where
  fileTooLarge : Bool
  transcribeResult : Option String
deriving DecidableEq, Repr

/-- Embedding of `SpeechToTextService.processAudioMessage`: prefer a cached transcript;
    otherwise transcribe and insert.  Every thrown error is caught and
    yields `none`; an insert error leaves the database unchanged. -/
def SpeechToTextService.processAudioMessage (db : DB) (fileId messageId : String)
    (env : SttEnv) (duration : Option Nat) : DB × Option String :=
  match db.getTranscript messageId fileId with
  | some existing => (db, some existing.transcript_text)
  | none =>
    if env.fileTooLarge then (db, none)
    else
      match env.transcribeResult with
      | none => (db, none)
      | some text =>
        match db.insertTranscript
            { message_id := messageId, file_id := fileId, transcript_text := text,
              language := some "ru", duration := duration } with
        | .ok db' => (db', some text)
        | .error _ => (db, none)

/-! ## scheduler.ts: SchedulerService -/

/-- Character-class test by ASCII code range (48 = `0`, 57 = `9`). -/
def charInRange (c : Char) (lo hi : Nat) : Bool :=
  lo ≤ c.toNat && c.toNat ≤ hi

/-- Value of a list of decimal digit characters. -/
def digitsToNat (cs : List Char) : Nat :=
  cs.foldl (fun n c => 10 * n + (c.toNat - 48)) 0

/-- Embeds `String.prototype.split(':')`, at character level. -/
def splitOnColonChars : List Char → List (List Char)
  | [] => [[]]
  | c :: cs =>
    if c == ':' then [] :: splitOnColonChars cs
    else
      match splitOnColonChars cs with
      | [] => [[c]]
      | p :: ps => (c :: p) :: ps

/-- JavaScript `Number` on a `split(':')` piece of a report-time string:
    `Number("") = 0`, a decimal-digit string parses, anything else is `NaN`
    (`none`).  (Signs, decimals and exotic numeric syntax do not occur in
    time fields; `cron.validate` rejects them the same way it rejects
    `NaN`.) -/
def jsNumChars (cs : List Char) : Option Nat :=
  if cs.isEmpty then some 0
  else if cs.all (fun c => charInRange c 48 57) then some (digitsToNat cs)
  else none

/-- Embeds `const [hours, minutes] = chat.report_time.split(':').map(Number)`:
    the destructured pair; a missing second component is `undefined`,
    carried here as `none` like `NaN`. -/
def parseReportTime (s : String) : Option Nat × Option Nat :=
  let parts := splitOnColonChars s.data
  (jsNumChars (parts.getD 0 []),
    match parts.get? 1 with
    | some p => jsNumChars p
    | none => none)

/-- Embeds `cron.validate` on the expression `${minutes} ${hours} * * *`: both
    fields must be numbers in range (minute 0–59, hour 0–23); `NaN` or
    `undefined` in a field makes the expression invalid. -/
def cronValidDaily (s : String) : Bool :=
  match parseReportTime s with
  | (some hours, some minutes) => minutes ≤ 59 && hours ≤ 23
  | _ => false

/-- A `cron.ScheduledTask` handle: the firing rule it was created with and
    an identity, so that destroyed handles can be tracked. -/
structure CronJob where
  id : Nat
  minute : Nat
  hour : Nat
  timezone : String
deriving DecidableEq, Repr

/-- The scheduler's state: the `Map<string, cron.ScheduledTask>` keyed by
    chat identifier, the ids of handles that were stopped and destroyed,
    and a counter supplying fresh handle ids. -/
structure SchedulerState where
  cronJobs : List (String × CronJob)
  destroyed : List Nat
  nextId : Nat
deriving DecidableEq, Repr

/-- Embeds `Map.get`. -/
def mapLookup (m : List (String × CronJob)) (k : String) : Option CronJob :=
  (m.find? (fun kv => kv.1 == k)).map (fun kv => kv.2)

/-- Embeds `Map.delete`. -/
def mapDelete (m : List (String × CronJob)) (k : String) : List (String × CronJob) :=
  m.filter (fun kv => !(kv.1 == k))

/-- Embeds `Map.set`: at most one binding per key (a JS `Map` replaces the value of
    an existing key; binding multiplicity and lookups agree with this
    remove-then-append form). -/
def mapSet (m : List (String × CronJob)) (k : String) (v : CronJob) :
    List (String × CronJob) :=
  mapDelete m k ++ [(k, v)]

/-- Embedding of `SchedulerService.unscheduleChat`: if a job is present, stop it,
    destroy it and delete the map entry; otherwise do nothing. -/
def SchedulerService.unscheduleChat (st : SchedulerState) (chatId : String) :
    SchedulerState :=
  match mapLookup st.cronJobs chatId with
  | some job =>
    { st with cronJobs := mapDelete st.cronJobs chatId,
              destroyed := job.id :: st.destroyed }
  | none => st

/-- Embedding of `SchedulerService.scheduleChat`.  The body runs inside `try { ... }
    catch { log }`, so a thrown validation error is swallowed and the state
    is left as it was at the throw point — in particular the opening
    `unscheduleChat` has already removed any previous timer.  `cron.schedule`
    receives the timezone but does not check it here, so an unresolvable
    timezone does not prevent scheduling.  The function always returns
    normally; no `InvalidScheduleError` exists in the code. -/
def SchedulerService.scheduleChat (st : SchedulerState) (chat : Chat) :
    SchedulerState :=
  let st1 := SchedulerService.unscheduleChat st chat.chat_id
  match parseReportTime chat.report_time with
  | (some hours, some minutes) =>
    if minutes ≤ 59 && hours ≤ 23 then
      let job : CronJob :=
        { id := st1.nextId, minute := minutes, hour := hours,
          timezone := chat.timezone }
      { st1 with cronJobs := mapSet st1.cronJobs chat.chat_id job,
                 nextId := st1.nextId + 1 }
    else st1
  | _ => st1

/-- A sequence of `scheduleChat` calls. -/
def SchedulerService.scheduleAll (st : SchedulerState) (chats : List Chat) :
    SchedulerState :=
  chats.foldl SchedulerService.scheduleChat st

/-- Embedding of `SchedulerService.validateTimeFormat`, the character-level compilation
    of the anchored regex `([0-1]?[0-9]|2[0-3]):[0-5][0-9]` (ASCII codes:
    48 = 0, 49 = 1, 50 = 2, 51 = 3, 53 = 5, 57 = 9; the literal `2` is the
    single-character class 50–50).  A 4-character string can only match
    with the optional hour digit absent, a 5-character one only with it
    present, and no other length matches the anchored pattern. -/
def timeRegexAccepts : List Char → Bool
  | [h, c, m1, m2] =>
    c == ':' && charInRange h 48 57 && charInRange m1 48 53 && charInRange m2 48 57
  | [h1, h2, c, m1, m2] =>
    c == ':' &&
      (charInRange h1 48 49 && charInRange h2 48 57 ||
        charInRange h1 50 50 && charInRange h2 48 51) &&
      charInRange m1 48 53 && charInRange m2 48 57
  | _ => false

def SchedulerService.validateTimeFormat (time : String) : Bool :=
  timeRegexAccepts time.data

/-! ## scheduler.ts: executeDailyReport -/

inductive FireEvent
  | summarySent (text : String)
  | errorNoticeSent (text : String)
deriving DecidableEq, Repr

inductive FireError
  | generation (e : SummError)
  | delivery (msg : String)
deriving DecidableEq, Repr

def FireError.message : FireError → String
  | .generation (.chatNotFound c) => "Chat " ++ c ++ " not found"
  | .generation (.backend m) => m
  | .delivery m => m

/-- The prefix of the error notice sent to the chat on a failed fire. -/
def errorNoticeText : String := "❌ Ошибка при создании ежедневного отчета: "

/-- The target date `executeDailyReport` computes: `const yesterday = new
    Date(); yesterday.setDate(yesterday.getDate() - 1)` — one day before
    today **on the server's local clock**; the chat's timezone is not
    consulted. -/
def codeTargetDate (serverToday : Nat) : Nat := serverToday - 1

/-- Embedding of `SchedulerService.executeDailyReport`.  The whole body is wrapped in
    `try/catch`; on any error the catch logs it and attempts one
    best-effort error notice inside a nested `try/catch`.  The method never
    touches `this.cronJobs`, so the scheduler state passes through
    unchanged.  `send` is `bot.telegram.sendMessage` (may error);
    `serverToday` is the server-local day index of `new Date()`. -/
def SchedulerService.executeDailyReport (st : SchedulerState) (db : DB)
    (chat : Chat) (provider : LLMProviderKind)
    (openaiGen : List ProcessedMessage → SummaryContext → Except String String)
    (send : String → Except String Unit) (serverToday : Nat) :
    SchedulerState × List FireEvent :=
  let yesterday := codeTargetDate serverToday
  let attempt : Except FireError (List FireEvent) :=
    if !(DailySummarizer.shouldGenerateSummary db chat.chat_id yesterday) then
      .ok []
    else
      match DailySummarizer.generateDailySummary db chat.chat_id yesterday
          provider openaiGen with
      | .error e => .error (.generation e)
      | .ok (summary, _) =>
        match send summary with
        | .error m => .error (.delivery m)
        | .ok _ => .ok [.summarySent summary]
  match attempt with
  | .ok events => (st, events)
  | .error e =>
    match send (errorNoticeText ++ e.message) with
    | .ok _ => (st, [.errorNoticeSent (errorNoticeText ++ e.message)])
    | .error _ => (st, [])

/-! ## Local calendar arithmetic for the target-date claim

A moment is `nowUtcMin` minutes since the epoch; a timezone is its UTC
offset in minutes at that moment; the local day index floors the shifted
time.  `specChatYesterday` writes down the spec's target date — "yesterday"
in the chat's timezone — to compare against `codeTargetDate`. -/

def localDayIndex (nowUtcMin offsetMin : Int) : Int :=
  (nowUtcMin + offsetMin).fdiv 1440

/-- The spec's target date: the day that just ended in the chat's zone. -/
def specChatYesterday (nowUtcMin chatOffsetMin : Int) : Int :=
  localDayIndex nowUtcMin chatOffsetMin - 1

/-! ## Helper lemmas -/

theorem insertByLe_perm (le : α → α → Bool) (x : α) (l : List α) :
    List.Perm (insertByLe le x l) (x :: l) := by
  induction l with
  | nil => simp [insertByLe]
  | cons y ys ih =>
    rw [insertByLe]
    split
    · exact List.Perm.refl _
    · exact (ih.cons y).trans (List.Perm.swap x y ys)

theorem sortByLe_perm (le : α → α → Bool) (l : List α) :
    List.Perm (sortByLe le l) l := by
  induction l with
  | nil => simp [sortByLe]
  | cons x xs ih =>
    rw [sortByLe]
    exact (insertByLe_perm le x _).trans (ih.cons x)

theorem sortByLe_length (le : α → α → Bool) (l : List α) :
    (sortByLe le l).length = l.length :=
  (sortByLe_perm le l).length_eq

theorem mem_sortByLe (le : α → α → Bool) (l : List α) (a : α) :
    a ∈ sortByLe le l ↔ a ∈ l :=
  (sortByLe_perm le l).mem_iff

/-! ## Claim C10: validateTimeFormat -/

def isDigitCh (c : Char) : Bool := charInRange c 48 57

/-- The format the claim describes: an hour 0–23 written with one or two
    digits (leading zero optional), a colon, and a two-digit minute 00–59. -/
def claimTimeFormat (s : String) : Prop :=
  ∃ hs ms : List Char,
    s.data = hs ++ ':' :: ms ∧
    (hs.length = 1 ∨ hs.length = 2) ∧ (∀ c ∈ hs, isDigitCh c = true) ∧
    digitsToNat hs ≤ 23 ∧
    ms.length = 2 ∧ (∀ c ∈ ms, isDigitCh c = true) ∧ digitsToNat ms ≤ 59

theorem timeRegexAccepts_iff (l : List Char) :
    timeRegexAccepts l = true ↔
      ∃ hs ms : List Char, l = hs ++ ':' :: ms ∧
        (hs.length = 1 ∨ hs.length = 2) ∧ (∀ c ∈ hs, isDigitCh c = true) ∧
        digitsToNat hs ≤ 23 ∧
        ms.length = 2 ∧ (∀ c ∈ ms, isDigitCh c = true) ∧ digitsToNat ms ≤ 59 := by
  constructor
  · intro h
    rcases l with _ | ⟨a, _ | ⟨b, _ | ⟨c, _ | ⟨d, _ | ⟨e, _ | ⟨f, rest⟩⟩⟩⟩⟩⟩
    · simp [timeRegexAccepts] at h
    · simp [timeRegexAccepts] at h
    · simp [timeRegexAccepts] at h
    · simp [timeRegexAccepts] at h
    · simp only [timeRegexAccepts, Bool.and_eq_true, beq_iff_eq, charInRange,
        decide_eq_true_eq] at h
      obtain ⟨⟨⟨hcol, ha⟩, hc⟩, hd⟩ := h
      subst hcol
      refine ⟨[a], [c, d], rfl, Or.inl rfl, ?_, ?_, rfl, ?_, ?_⟩
      · simp only [List.mem_singleton, isDigitCh, charInRange, Bool.and_eq_true,
          decide_eq_true_eq]
        rintro x rfl
        omega
      · simp only [digitsToNat, List.foldl]
        omega
      · simp only [List.mem_cons, List.not_mem_nil, or_false, isDigitCh,
          charInRange, Bool.and_eq_true, decide_eq_true_eq]
        rintro x (rfl | rfl) <;> omega
      · simp only [digitsToNat, List.foldl]
        omega
    · simp only [timeRegexAccepts, Bool.and_eq_true, Bool.or_eq_true, beq_iff_eq,
        charInRange, decide_eq_true_eq] at h
      obtain ⟨⟨⟨hcol, halt⟩, hd⟩, he⟩ := h
      subst hcol
      refine ⟨[a, b], [d, e], rfl, Or.inr rfl, ?_, ?_, rfl, ?_, ?_⟩
      · simp only [List.mem_cons, List.not_mem_nil, or_false, isDigitCh,
          charInRange, Bool.and_eq_true, decide_eq_true_eq]
        rintro x (rfl | rfl) <;> omega
      · simp only [digitsToNat, List.foldl]
        omega
      · simp only [List.mem_cons, List.not_mem_nil, or_false, isDigitCh,
          charInRange, Bool.and_eq_true, decide_eq_true_eq]
        rintro x (rfl | rfl) <;> omega
      · simp only [digitsToNat, List.foldl]
        omega
    · rw [show timeRegexAccepts (a :: b :: c :: d :: e :: f :: rest) = false
          from rfl] at h
      exact Bool.noConfusion h
  · rintro ⟨hs, ms, heq, hlen, hdig, hval, mlen, mdig, mval⟩
    obtain ⟨m1, m2, rfl⟩ := List.length_eq_two.mp mlen
    simp only [List.mem_cons, List.not_mem_nil, or_false, isDigitCh, charInRange,
      Bool.and_eq_true, decide_eq_true_eq, forall_eq_or_imp, forall_eq] at mdig
    simp only [digitsToNat, List.foldl] at mval
    rcases hlen with h1 | h2
    · obtain ⟨a, rfl⟩ := List.length_eq_one.mp h1
      simp only [List.mem_singleton, isDigitCh, charInRange, Bool.and_eq_true,
        decide_eq_true_eq, forall_eq] at hdig
      subst heq
      simp only [List.cons_append, List.nil_append, timeRegexAccepts,
        Bool.and_eq_true, beq_self_eq_true, charInRange, decide_eq_true_eq,
        true_and]
      omega
    · obtain ⟨a, b, rfl⟩ := List.length_eq_two.mp h2
      simp only [List.mem_cons, List.not_mem_nil, or_false, isDigitCh, charInRange,
        Bool.and_eq_true, decide_eq_true_eq, forall_eq_or_imp, forall_eq] at hdig
      simp only [digitsToNat, List.foldl] at hval
      subst heq
      simp only [List.cons_append, List.nil_append, timeRegexAccepts,
        Bool.and_eq_true, Bool.or_eq_true, beq_self_eq_true, charInRange,
        decide_eq_true_eq, true_and]
      omega

/-- C10: `SchedulerService.validateTimeFormat s` returns `true` exactly when
`s` is an hour 0–23 written with one or two digits (leading zero optional),
a colon, and a two-digit minute 00–59; in particular the single-digit-hour
string `"9:05"` is accepted. -/
theorem C10_validateTimeFormat_characterization :
    (∀ s : String,
      SchedulerService.validateTimeFormat s = true ↔ claimTimeFormat s) ∧
    SchedulerService.validateTimeFormat "9:05" = true := by
  constructor
  · intro s
    exact timeRegexAccepts_iff s.data
  · decide

/-! ## Claim C8: the fallback guarantee -/

/-- C8: with the generative backend unavailable the factory picks the
fallback provider, whose render of a non-empty message set makes zero
generative-backend calls and returns non-empty deterministic text that
contains the target mention string and the statistics line carrying the
total message count. -/
theorem C8_fallback_guarantee (messages : List ProcessedMessage)
    (ctx : SummaryContext)
    (openaiGen : List ProcessedMessage → SummaryContext → Except String String)
    (hne : messages ≠ []) :
    LLMProviderFactory.getProvider false = .fallback ∧
    providerGenerateSummary .fallback openaiGen messages ctx =
      .ok (FallbackProvider.generateSummary messages ctx, 0) ∧
    0 < (FallbackProvider.generateSummary messages ctx).length ∧
    (∃ rest, FallbackProvider.generateSummary messages ctx =
      ctx.targetUsername ++ rest) ∧
    (∃ pre post, FallbackProvider.generateSummary messages ctx =
      pre ++ fallbackStatsLine ctx.totalMessages ++ post) := by
  refine ⟨rfl, rfl, ?_, ⟨_, rfl⟩, ?_⟩
  · have hpos :
        0 < (" Снова не прочитал чат, пес? Соси огрызки:\n\n📝 **Темы:** Обсуждение различных вопросов\n" : String).length := by
      decide
    unfold FallbackProvider.generateSummary
    simp only [String.length_append]
    omega
  · refine ⟨ctx.targetUsername ++
      " Снова не прочитал чат, пес? Соси огрызки:\n\n📝 **Темы:** Обсуждение различных вопросов\n",
      "\n🎤 **Голосовые/кружки:** " ++
        toString (messages.filter (fun m =>
          (m.type == .voice || m.type == .video_note) && optTruthy m.transcript)).length ++
        " аудиосообщений\n📎 **Медиа:** " ++
        toString (messages.filter (fun m =>
          m.type == .photo || m.type == .video || m.type == .document)).length ++
        " файлов\n💬 **Текстовых:** " ++
        toString (messages.filter (fun m =>
          m.type == .text && optTruthy m.content)).length ++
        " сообщений\n\n_Детальное саммари временно недоступно. Проверьте настройки OpenAI API._",
      ?_⟩
    simp [FallbackProvider.generateSummary, String.append_assoc]

def c8Msg : ProcessedMessage :=
  { id := "1", user := { username := some "vlad", firstName := "V", lastName := none },
    type := .text, content := some "привет", transcript := none,
    timestamp := "2024-01-09 10:00:00", replyTo := none }

def c8Ctx : SummaryContext :=
  { chatTitle := "Chat", date := "1", totalMessages := 1,
    targetUsername := "@vlad311" }

def c8Gen : List ProcessedMessage → SummaryContext → Except String String :=
  fun _ _ => .error "quota"

/-- Witness for C8 at a concrete one-message input. -/
theorem C8_fallback_guarantee_witness :
    [c8Msg] ≠ ([] : List ProcessedMessage) ∧
    (LLMProviderFactory.getProvider false = .fallback ∧
      providerGenerateSummary .fallback c8Gen [c8Msg] c8Ctx =
        .ok (FallbackProvider.generateSummary [c8Msg] c8Ctx, 0) ∧
      0 < (FallbackProvider.generateSummary [c8Msg] c8Ctx).length ∧
      (∃ rest, FallbackProvider.generateSummary [c8Msg] c8Ctx =
        c8Ctx.targetUsername ++ rest) ∧
      (∃ pre post, FallbackProvider.generateSummary [c8Msg] c8Ctx =
        pre ++ fallbackStatsLine c8Ctx.totalMessages ++ post)) :=
  ⟨by decide, C8_fallback_guarantee [c8Msg] c8Ctx c8Gen (by decide)⟩

/-! ## Claim C6: transcript idempotence -/

/-- C6: after the first successful transcript write for a `(messageId,
fileId)` pair, a second `processAudioMessage` for the same pair is a no-op
returning the stored text — the pre-existing row is preferred over
recomputation whatever the new attempt would produce — and a raw duplicate
`insertTranscript` is rejected by the `UNIQUE(message_id, file_id)` key, so
the stored transcript never changes after the first write. -/
theorem C6_transcript_idempotent (db : DB) (messageId fileId text : String)
    (dur : Option Nat) (env' : SttEnv) (dur' : Option Nat)
    (hfresh : db.getTranscript messageId fileId = none) :
    (SpeechToTextService.processAudioMessage db fileId messageId
        ⟨false, some text⟩ dur).2 = some text ∧
    (SpeechToTextService.processAudioMessage db fileId messageId
        ⟨false, some text⟩ dur).1.getTranscript messageId fileId =
      some ⟨messageId, fileId, text, some "ru", dur⟩ ∧
    SpeechToTextService.processAudioMessage
        (SpeechToTextService.processAudioMessage db fileId messageId
          ⟨false, some text⟩ dur).1 fileId messageId env' dur' =
      ((SpeechToTextService.processAudioMessage db fileId messageId
          ⟨false, some text⟩ dur).1, some text) ∧
    ∀ t : Transcript, t.message_id = messageId → t.file_id = fileId →
      (SpeechToTextService.processAudioMessage db fileId messageId
          ⟨false, some text⟩ dur).1.insertTranscript t =
        .error .uniqueViolation := by
  have h1 : SpeechToTextService.processAudioMessage db fileId messageId
      ⟨false, some text⟩ dur =
      ({ db with transcripts :=
          db.transcripts ++ [⟨messageId, fileId, text, some "ru", dur⟩] },
        some text) := by
    simp [SpeechToTextService.processAudioMessage, DB.insertTranscript, hfresh]
  have hget : ({ db with transcripts :=
      db.transcripts ++ [⟨messageId, fileId, text, some "ru", dur⟩] } : DB).getTranscript
        messageId fileId = some ⟨messageId, fileId, text, some "ru", dur⟩ := by
    unfold DB.getTranscript at hfresh ⊢
    rw [List.find?_append, hfresh]
    simp
  refine ⟨by rw [h1], by rw [h1]; exact hget, ?_, ?_⟩
  · rw [h1]
    simp [SpeechToTextService.processAudioMessage, hget]
  · intro t ht1 ht2
    rw [h1]
    simp [DB.insertTranscript, ht1, ht2, hget]

def c6DB : DB := { chats := [], users := [], messages := [], transcripts := [] }

def c6Env : SttEnv := { fileTooLarge := false, transcribeResult := some "другое" }

/-- Witness for C6 at a concrete input. -/
theorem C6_transcript_idempotent_witness :
    c6DB.getTranscript "m1" "f1" = none ∧
    ((SpeechToTextService.processAudioMessage c6DB "f1" "m1"
        ⟨false, some "привет"⟩ (some 5)).2 = some "привет" ∧
      (SpeechToTextService.processAudioMessage c6DB "f1" "m1"
          ⟨false, some "привет"⟩ (some 5)).1.getTranscript "m1" "f1" =
        some ⟨"m1", "f1", "привет", some "ru", some 5⟩ ∧
      SpeechToTextService.processAudioMessage
          (SpeechToTextService.processAudioMessage c6DB "f1" "m1"
            ⟨false, some "привет"⟩ (some 5)).1 "f1" "m1" c6Env none =
        ((SpeechToTextService.processAudioMessage c6DB "f1" "m1"
            ⟨false, some "привет"⟩ (some 5)).1, some "привет") ∧
      ∀ t : Transcript, t.message_id = "m1" → t.file_id = "f1" →
        (SpeechToTextService.processAudioMessage c6DB "f1" "m1"
            ⟨false, some "привет"⟩ (some 5)).1.insertTranscript t =
          .error .uniqueViolation) :=
  ⟨by decide, C6_transcript_idempotent c6DB "m1" "f1" "привет" (some 5) c6Env
    none (by decide)⟩

/-! ## Registry map lemmas -/

theorem find?_mapDelete (m : List (String × CronJob)) (k : String) :
    (mapDelete m k).find? (fun kv => kv.1 == k) = none := by
  rw [List.find?_eq_none]
  intro kv hkv
  have h := (List.mem_filter.mp hkv).2
  simpa using h

theorem mapLookup_mapDelete (m : List (String × CronJob)) (k : String) :
    mapLookup (mapDelete m k) k = none := by
  simp [mapLookup, find?_mapDelete]

theorem filter_mapDelete (m : List (String × CronJob)) (k : String) :
    (mapDelete m k).filter (fun kv => kv.1 == k) = [] := by
  simp only [mapDelete, List.filter_filter]
  have : (fun (kv : String × CronJob) => kv.1 == k && !(kv.1 == k)) =
      fun _ => false := by
    funext kv
    exact Bool.and_not_self _
  rw [this, List.filter_false]

theorem mapLookup_mem (m : List (String × CronJob)) (c : String) (j : CronJob)
    (h : mapLookup m c = some j) : ∃ kv ∈ m, kv.2 = j := by
  unfold mapLookup at h
  rcases ho : m.find? (fun kv => kv.1 == c) with _ | kv
  · rw [ho] at h
    cases h
  · rw [ho] at h
    refine ⟨kv, List.mem_of_find?_eq_some ho, ?_⟩
    simpa using h

/-! ## Claim C1: registration with an invalid schedule -/

/-- The scheduler-state well-formedness the registry maintains: every
    handle id in play is below the fresh-id counter. -/
def SchedulerWF (st : SchedulerState) : Prop :=
  (∀ kv ∈ st.cronJobs, kv.2.id < st.nextId) ∧ ∀ i ∈ st.destroyed, i < st.nextId

/-- C1 (amended): when `report_time` fails cron validation, `scheduleChat`
returns normally — the thrown error is caught and logged inside the method,
no `InvalidScheduleError` reaches the caller — and the chat is not
scheduled; but the previously existing timer is **not** left untouched: the
opening `unscheduleChat` has already cancelled and destroyed it. -/
theorem C1_invalid_schedule_outcome (st : SchedulerState) (chat : Chat)
    (hbad : cronValidDaily chat.report_time = false) :
    SchedulerService.scheduleChat st chat =
      SchedulerService.unscheduleChat st chat.chat_id ∧
    mapLookup (SchedulerService.scheduleChat st chat).cronJobs chat.chat_id =
      none ∧
    ∀ j, mapLookup st.cronJobs chat.chat_id = some j →
      j.id ∈ (SchedulerService.scheduleChat st chat).destroyed := by
  have hsched : SchedulerService.scheduleChat st chat =
      SchedulerService.unscheduleChat st chat.chat_id := by
    unfold SchedulerService.scheduleChat
    unfold cronValidDaily at hbad
    rcases hp : parseReportTime chat.report_time with ⟨oh, om⟩
    rw [hp] at hbad
    rcases oh with _ | h0 <;> rcases om with _ | m0 <;> simp_all
  refine ⟨hsched, ?_, ?_⟩
  · rw [hsched]
    unfold SchedulerService.unscheduleChat
    rcases hl : mapLookup st.cronJobs chat.chat_id with _ | j
    · exact hl
    · exact mapLookup_mapDelete st.cronJobs chat.chat_id
  · intro j hj
    rw [hsched]
    unfold SchedulerService.unscheduleChat
    rw [hj]
    exact List.mem_cons_self j.id st.destroyed

def c1PrevJob : CronJob :=
  { id := 0, minute := 0, hour := 21, timezone := "Europe/Berlin" }

def c1State : SchedulerState :=
  { cronJobs := [("c1", c1PrevJob)], destroyed := [], nextId := 1 }

def c1BadChat : Chat :=
  { chat_id := "c1", title := "T", report_time := "25:00",
    timezone := "Europe/Berlin", target_username := "@vlad311",
    is_active := true }

/-- C1 counterexample: chat `"c1"` has the invalid `report_time` `"25:00"`
and a live previously existing timer; after `scheduleChat` the registry no
longer holds that timer and its handle has been destroyed — the claim's
"the chat's previously existing timer is left untouched" is false (and the
call returns normally instead of failing with `InvalidScheduleError`). -/
theorem C1_counterexample :
    cronValidDaily c1BadChat.report_time = false ∧
    mapLookup c1State.cronJobs "c1" = some c1PrevJob ∧
    mapLookup (SchedulerService.scheduleChat c1State c1BadChat).cronJobs "c1" =
      none ∧
    (SchedulerService.scheduleChat c1State c1BadChat).destroyed = [0] := by
  decide

/-- Witness for the amended C1 at a concrete input. -/
theorem C1_invalid_schedule_outcome_witness :
    cronValidDaily c1BadChat.report_time = false ∧
    (SchedulerService.scheduleChat c1State c1BadChat =
      SchedulerService.unscheduleChat c1State c1BadChat.chat_id ∧
    mapLookup (SchedulerService.scheduleChat c1State c1BadChat).cronJobs
      c1BadChat.chat_id = none ∧
    ∀ j, mapLookup c1State.cronJobs c1BadChat.chat_id = some j →
      j.id ∈ (SchedulerService.scheduleChat c1State c1BadChat).destroyed) :=
  ⟨by decide, C1_invalid_schedule_outcome c1State c1BadChat (by decide)⟩

/-! ## Claim C4: one live timer per chat -/

/-- Number of registry bindings a chat identifier has. -/
def chatBindings (st : SchedulerState) (c : String) : Nat :=
  (st.cronJobs.filter (fun kv => kv.1 == c)).length

theorem unscheduleChat_wf (st : SchedulerState) (c : String)
    (h : SchedulerWF st) : SchedulerWF (SchedulerService.unscheduleChat st c) := by
  unfold SchedulerService.unscheduleChat
  rcases hl : mapLookup st.cronJobs c with _ | j
  · exact h
  · refine ⟨?_, ?_⟩
    · intro kv hkv
      exact h.1 kv (List.mem_of_mem_filter hkv)
    · intro i hi
      rcases List.mem_cons.mp hi with rfl | hi'
      · obtain ⟨kv, hkvm, hkv2⟩ := mapLookup_mem st.cronJobs c j hl
        rw [← hkv2]
        exact h.1 kv hkvm
      · exact h.2 i hi'

theorem scheduleChat_wf (st : SchedulerState) (chat : Chat)
    (h : SchedulerWF st) : SchedulerWF (SchedulerService.scheduleChat st chat) := by
  unfold SchedulerService.scheduleChat
  have h1 := unscheduleChat_wf st chat.chat_id h
  rcases parseReportTime chat.report_time with ⟨_ | h0, _ | m0⟩
  · exact h1
  · exact h1
  · exact h1
  · dsimp only
    by_cases hc : (m0 ≤ 59 && h0 ≤ 23) = true
    · rw [if_pos hc]
      refine ⟨?_, ?_⟩
      · intro kv hkv
        rcases List.mem_append.mp hkv with hkv' | hkv'
        · exact Nat.lt_succ_of_lt (h1.1 kv (List.mem_of_mem_filter hkv'))
        · rcases List.mem_singleton.mp hkv' with rfl
          exact Nat.lt_succ_self _
      · intro i hi
        exact Nat.lt_succ_of_lt (h1.2 i hi)
    · rw [if_neg hc]
      exact h1

theorem scheduleChat_bindings (st : SchedulerState) (chat : Chat)
    (hv : cronValidDaily chat.report_time = true) :
    chatBindings (SchedulerService.scheduleChat st chat) chat.chat_id = 1 := by
  unfold SchedulerService.scheduleChat
  unfold cronValidDaily at hv
  rcases hp : parseReportTime chat.report_time with ⟨oh, om⟩
  rw [hp] at hv
  rcases oh with _ | h0 <;> rcases om with _ | m0 <;> simp only [] at hv ⊢
  · exact Bool.noConfusion hv
  · exact Bool.noConfusion hv
  · exact Bool.noConfusion hv
  · rw [if_pos hv]
    unfold chatBindings mapSet
    rw [List.filter_append, filter_mapDelete]
    simp

theorem scheduleChat_live (st : SchedulerState) (chat : Chat)
    (hwf : SchedulerWF st) (hv : cronValidDaily chat.report_time = true) :
    ∀ kv ∈ (SchedulerService.scheduleChat st chat).cronJobs,
      kv.1 = chat.chat_id →
      kv.2.id ∉ (SchedulerService.scheduleChat st chat).destroyed := by
  have h1 := unscheduleChat_wf st chat.chat_id hwf
  unfold SchedulerService.scheduleChat
  unfold cronValidDaily at hv
  rcases hp : parseReportTime chat.report_time with ⟨oh, om⟩
  rw [hp] at hv
  rcases oh with _ | h0 <;> rcases om with _ | m0 <;> simp only [] at hv ⊢
  · exact Bool.noConfusion hv
  · exact Bool.noConfusion hv
  · exact Bool.noConfusion hv
  · rw [if_pos hv]
    intro kv hkv hk1
    rcases List.mem_append.mp hkv with hkv' | hkv'
    · have := (List.mem_filter.mp hkv').2
      rw [hk1] at this
      simp at this
    · rcases List.mem_singleton.mp hkv' with rfl
      intro hmem
      exact absurd (h1.2 _ hmem) (Nat.lt_irrefl _)

theorem chatBindings_mapDelete_le (m : List (String × CronJob)) (x c : String) :
    ((mapDelete m x).filter (fun kv => kv.1 == c)).length ≤
      (m.filter (fun kv => kv.1 == c)).length :=
  List.Sublist.length_le ((List.filter_sublist m).filter _)

theorem unscheduleChat_bindings_le (st : SchedulerState) (x c : String) :
    chatBindings (SchedulerService.unscheduleChat st x) c ≤ chatBindings st c := by
  unfold SchedulerService.unscheduleChat
  rcases hl : mapLookup st.cronJobs x with _ | j
  · exact Nat.le_refl _
  · exact chatBindings_mapDelete_le st.cronJobs x c

theorem scheduleChat_bindings_le (st : SchedulerState) (ch : Chat) (c : String)
    (h : chatBindings st c ≤ 1) :
    chatBindings (SchedulerService.scheduleChat st ch) c ≤ 1 := by
  have hun : chatBindings (SchedulerService.unscheduleChat st ch.chat_id) c ≤ 1 :=
    Nat.le_trans (unscheduleChat_bindings_le st ch.chat_id c) h
  unfold SchedulerService.scheduleChat
  rcases parseReportTime ch.report_time with ⟨_ | h0, _ | m0⟩
  · exact hun
  · exact hun
  · exact hun
  · dsimp only
    by_cases hcond : (m0 ≤ 59 && h0 ≤ 23) = true
    · rw [if_pos hcond]
      unfold chatBindings mapSet
      rw [List.filter_append, List.length_append]
      by_cases hx : (ch.chat_id == c) = true
      · obtain rfl : ch.chat_id = c := by simpa using hx
        rw [filter_mapDelete]
        simp
      · have hnil : List.filter (fun kv : String × CronJob => kv.1 == c)
            [(ch.chat_id, ⟨(SchedulerService.unscheduleChat st ch.chat_id).nextId,
              m0, h0, ch.timezone⟩)] = [] := by
          simp [List.filter, hx]
        rw [hnil]
        simpa using Nat.le_trans
          (chatBindings_mapDelete_le
            (SchedulerService.unscheduleChat st ch.chat_id).cronJobs
            ch.chat_id c) hun
    · rw [if_neg hcond]
      exact hun

theorem scheduleAll_bindings_le (st : SchedulerState) (chats : List Chat)
    (c : String) (h : chatBindings st c ≤ 1) :
    chatBindings (SchedulerService.scheduleAll st chats) c ≤ 1 := by
  induction chats generalizing st with
  | nil => exact h
  | cons ch rest ih => exact ih _ (scheduleChat_bindings_le st ch c h)

/-- C4: starting from a well-formed registry, any non-empty sequence of
(valid) `scheduleChat` registrations for one chat identifier leaves exactly
one binding for that chat in the registry map, and that timer's handle is
live (not among the destroyed handles) — repeated registration replaces,
never stacks; moreover, from any registry holding at most one binding for
the chat, no sequence of `scheduleChat` calls whatsoever (valid or not, any
chats) can ever stack a second binding for it. -/
theorem C4_one_live_timer (st : SchedulerState) (c : String)
    (chats : List Chat) (hwf : SchedulerWF st) (hne : chats ≠ [])
    (hall : ∀ ch ∈ chats, ch.chat_id = c ∧ cronValidDaily ch.report_time = true) :
    (chatBindings (SchedulerService.scheduleAll st chats) c = 1 ∧
    ∀ kv ∈ (SchedulerService.scheduleAll st chats).cronJobs, kv.1 = c →
      kv.2.id ∉ (SchedulerService.scheduleAll st chats).destroyed) ∧
    ∀ (st' : SchedulerState) (others : List Chat), chatBindings st' c ≤ 1 →
      chatBindings (SchedulerService.scheduleAll st' others) c ≤ 1 := by
  refine ⟨?_, fun st' others h => scheduleAll_bindings_le st' others c h⟩
  induction chats generalizing st with
  | nil => exact absurd rfl hne
  | cons ch rest ih =>
    obtain ⟨hc, hv⟩ := hall ch (List.mem_cons_self ch rest)
    by_cases hr : rest = []
    · subst hr
      subst hc
      exact ⟨scheduleChat_bindings st ch hv, scheduleChat_live st ch hwf hv⟩
    · have hfold : SchedulerService.scheduleAll st (ch :: rest) =
        SchedulerService.scheduleAll (SchedulerService.scheduleChat st ch) rest :=
        rfl
      rw [hfold]
      exact ih (SchedulerService.scheduleChat st ch) (scheduleChat_wf st ch hwf)
        hr (fun x hx => hall x (List.mem_cons_of_mem ch hx))

def c4ChatA : Chat :=
  { chat_id := "c1", title := "T", report_time := "21:00",
    timezone := "Europe/Berlin", target_username := "@vlad311",
    is_active := true }

def c4ChatB : Chat :=
  { chat_id := "c1", title := "T", report_time := "9:30",
    timezone := "Europe/Moscow", target_username := "@vlad311",
    is_active := true }

def c4St0 : SchedulerState := { cronJobs := [], destroyed := [], nextId := 0 }

/-- Witness for C4: two successive registrations of the same chat. -/
theorem C4_one_live_timer_witness :
    SchedulerWF c4St0 ∧ [c4ChatA, c4ChatB] ≠ ([] : List Chat) ∧
    (∀ ch ∈ [c4ChatA, c4ChatB],
      ch.chat_id = "c1" ∧ cronValidDaily ch.report_time = true) ∧
    ((chatBindings (SchedulerService.scheduleAll c4St0 [c4ChatA, c4ChatB]) "c1" = 1 ∧
    ∀ kv ∈ (SchedulerService.scheduleAll c4St0 [c4ChatA, c4ChatB]).cronJobs,
      kv.1 = "c1" →
      kv.2.id ∉ (SchedulerService.scheduleAll c4St0 [c4ChatA, c4ChatB]).destroyed) ∧
    ∀ (st' : SchedulerState) (others : List Chat), chatBindings st' "c1" ≤ 1 →
      chatBindings (SchedulerService.scheduleAll st' others) "c1" ≤ 1) :=
  ⟨⟨by decide, by decide⟩, by decide, by decide,
    C4_one_live_timer c4St0 "c1" [c4ChatA, c4ChatB] ⟨by decide, by decide⟩
      (by decide) (by decide)⟩

/-! ## Claim C9: per-chat failure containment during a fire -/

/-- C9: `executeDailyReport` never propagates a failure: whatever the
generation and delivery outcomes, the call returns normally and leaves the
registry state — in particular the chat's own timer binding — exactly as it
was, so the chat's future recurrence is untouched; and when the fire fails
(generation error, or delivery error on the summary send) while the
delivery channel accepts the notice, a best-effort error notice is sent to
the chat. -/
theorem C9_fire_containment (st : SchedulerState) (db : DB) (chat : Chat)
    (provider : LLMProviderKind)
    (openaiGen : List ProcessedMessage → SummaryContext → Except String String)
    (send : String → Except String Unit) (serverToday : Nat) :
    (SchedulerService.executeDailyReport st db chat provider openaiGen send
      serverToday).1 = st ∧
    (∀ e, DailySummarizer.generateDailySummary db chat.chat_id
        (codeTargetDate serverToday) provider openaiGen = .error e →
      DailySummarizer.shouldGenerateSummary db chat.chat_id
        (codeTargetDate serverToday) = true →
      send (errorNoticeText ++ (FireError.generation e).message) = .ok () →
      (SchedulerService.executeDailyReport st db chat provider openaiGen send
        serverToday).2 =
        [.errorNoticeSent
          (errorNoticeText ++ (FireError.generation e).message)]) ∧
    (∀ summary k errMsg,
      DailySummarizer.generateDailySummary db chat.chat_id
        (codeTargetDate serverToday) provider openaiGen = .ok (summary, k) →
      DailySummarizer.shouldGenerateSummary db chat.chat_id
        (codeTargetDate serverToday) = true →
      send summary = .error errMsg →
      send (errorNoticeText ++ (FireError.delivery errMsg).message) = .ok () →
      (SchedulerService.executeDailyReport st db chat provider openaiGen send
        serverToday).2 =
        [.errorNoticeSent
          (errorNoticeText ++ (FireError.delivery errMsg).message)]) := by
  have hfst : ∀ a : Except FireError (List FireEvent),
      (match a with
       | .ok events => (st, events)
       | .error e =>
         match send (errorNoticeText ++ e.message) with
         | .ok _ =>
           (st, [FireEvent.errorNoticeSent (errorNoticeText ++ e.message)])
         | .error _ => (st, ([] : List FireEvent))).1 = st := by
    intro a
    rcases a with e | evs
    · dsimp only
      rcases send (errorNoticeText ++ e.message) with m | u <;> rfl
    · rfl
  refine ⟨hfst _, ?_, ?_⟩
  · intro e hgen hshould hnotice
    simp [SchedulerService.executeDailyReport, hshould, hgen, hnotice]
  · intro summary k errMsg hgen hshould hsendErr hnotice
    simp [SchedulerService.executeDailyReport, hshould, hgen, hsendErr, hnotice]

def c9User : User :=
  { user_id := "u", username := some "t", first_name := "T", last_name := none,
    is_opted_out := false }

def c9Chat : Chat :=
  { chat_id := "c", title := "Chat", report_time := "21:00",
    timezone := "Europe/Berlin", target_username := "@vlad311",
    is_active := true }

def c9Msg : Message :=
  { chat_id := "c", message_id := "1", user_id := "u", message_type := .text,
    content := some "hi", file_id := none, reply_to_message_id := none,
    -- a row whose timestamp text falls inside the day-0 window bounds, so
    -- the fire reaches the generation step and the containment hypotheses
    -- of the claim are exercised
    created_at := "1970-01-01T12:00:00.000Z" }

def c9DB : DB :=
  { chats := [c9Chat], users := [c9User], messages := [c9Msg],
    transcripts := [] }

def c9St : SchedulerState :=
  { cronJobs := [("c", ⟨0, 0, 21, "Europe/Berlin"⟩)], destroyed := [],
    nextId := 1 }

def c9Gen : List ProcessedMessage → SummaryContext → Except String String :=
  fun _ _ => .error "boom"

def c9Send : String → Except String Unit := fun _ => .ok ()

/-- Witness for C9: a generation failure during a fire with reachable
delivery produces exactly the error notice, with the registry untouched. -/
theorem C9_fire_containment_witness :
    DailySummarizer.generateDailySummary c9DB c9Chat.chat_id
      (codeTargetDate 1) .openai c9Gen = .error (.backend "boom") ∧
    DailySummarizer.shouldGenerateSummary c9DB c9Chat.chat_id
      (codeTargetDate 1) = true ∧
    c9Send (errorNoticeText ++
      (FireError.generation (.backend "boom")).message) = .ok () ∧
    (SchedulerService.executeDailyReport c9St c9DB c9Chat .openai c9Gen c9Send
      1).1 = c9St ∧
    (SchedulerService.executeDailyReport c9St c9DB c9Chat .openai c9Gen c9Send
      1).2 =
      [.errorNoticeSent (errorNoticeText ++
        (FireError.generation (.backend "boom")).message)] :=
  ⟨by decide, by decide, rfl,
    (C9_fire_containment c9St c9DB c9Chat .openai c9Gen c9Send 1).1,
    (C9_fire_containment c9St c9DB c9Chat .openai c9Gen c9Send 1).2.1
      (.backend "boom") (by decide) (by decide) rfl⟩

/-! ## Claim C7: the fire's target date -/

/-- C7 (code bug, evaluated at the failing input): the server clock is UTC
(offset 0) and the chat's timezone is UTC+9 (`Asia/Tokyo`); the timer of a
chat configured to report shortly after its local midnight fires at 15:30
UTC of epoch day 1, which is 00:30 of epoch day 2 in the chat's zone.  The
day that just ended in the chat's timezone is day 1, but the
`codeTargetDate` that `executeDailyReport` applies to the server-local
today — `new Date()` minus one day, never consulting the chat's timezone —
is day 0: the fire summarizes the wrong calendar day whenever the
server-local and chat-local dates differ at fire time. -/
theorem C7_target_date_uses_server_clock :
    localDayIndex 2370 0 = 1 ∧
    codeTargetDate 1 = 0 ∧
    specChatYesterday 2370 540 = 1 ∧
    (codeTargetDate 1 : Int) ≠ specChatYesterday 2370 540 := by
  decide

/-! ## Claim C5: empty days -/

/-- C5: when the filtered message set of a chat's day is empty,
`shouldGenerateSummary` is false and the scheduled fire targeting that day
sends nothing, while an explicit `generateDailySummary` call returns the
fixed empty-state text with zero generative-backend calls. -/
theorem C5_empty_day (db : DB) (chat : Chat) (date : Nat)
    (st : SchedulerState) (provider : LLMProviderKind)
    (openaiGen : List ProcessedMessage → SummaryContext → Except String String)
    (send : String → Except String Unit)
    (hchat : db.getChat chat.chat_id = some chat)
    (hempty : (DailySummarizer.getMessagesForDate db chat.chat_id date).messages
      = []) :
    DailySummarizer.shouldGenerateSummary db chat.chat_id date = false ∧
    (SchedulerService.executeDailyReport st db chat provider openaiGen send
      (date + 1)).2 = [] ∧
    DailySummarizer.generateDailySummary db chat.chat_id date provider
      openaiGen =
      .ok (DailySummarizer.generateEmptySummary chat.target_username, 0) := by
  have hshould : DailySummarizer.shouldGenerateSummary db chat.chat_id date
      = false := by
    unfold DailySummarizer.shouldGenerateSummary
    rw [hempty]
    simp
  have hctd : codeTargetDate (date + 1) = date := by
    simp [codeTargetDate]
  refine ⟨hshould, ?_, ?_⟩
  · simp [SchedulerService.executeDailyReport, hctd, hshould]
  · unfold DailySummarizer.generateDailySummary
    rw [hchat]
    simp [hempty]

def c5Chat : Chat :=
  { chat_id := "c", title := "Chat", report_time := "21:00",
    timezone := "Europe/Berlin", target_username := "@vlad311",
    is_active := true }

def c5DB : DB :=
  { chats := [c5Chat], users := [], messages := [], transcripts := [] }

def c5St : SchedulerState := { cronJobs := [], destroyed := [], nextId := 0 }

def c5Gen : List ProcessedMessage → SummaryContext → Except String String :=
  fun _ _ => .error "unavailable"

def c5Send : String → Except String Unit := fun _ => .ok ()

/-- Witness for C5 at a concrete empty-day input. -/
theorem C5_empty_day_witness :
    c5DB.getChat c5Chat.chat_id = some c5Chat ∧
    (DailySummarizer.getMessagesForDate c5DB c5Chat.chat_id 0).messages = [] ∧
    (DailySummarizer.shouldGenerateSummary c5DB c5Chat.chat_id 0 = false ∧
    (SchedulerService.executeDailyReport c5St c5DB c5Chat .openai c5Gen c5Send
      (0 + 1)).2 = [] ∧
    DailySummarizer.generateDailySummary c5DB c5Chat.chat_id 0 .openai c5Gen =
      .ok (DailySummarizer.generateEmptySummary c5Chat.target_username, 0)) :=
  ⟨by decide, by decide,
    C5_empty_day c5DB c5Chat 0 c5St .openai c5Gen c5Send (by decide) (by decide)⟩

/-! ## Claim C2: the day window -/

theorem charListLt_append_sep (d D : List Char) (h : d.length = D.length)
    (x y : Char) (hxy : x.toNat < y.toNat) (w u v : List Char) :
    charListLt (d ++ x :: w) (D ++ y :: u) =
      charListLt (d ++ x :: w) (D ++ y :: v) := by
  induction d generalizing D with
  | nil =>
    obtain rfl : D = [] := by
      cases D
      · rfl
      · simp at h
    simp only [List.nil_append, charListLt, if_pos hxy]
  | cons c d' ih =>
    rcases D with _ | ⟨C, D'⟩
    · simp at h
    · simp only [List.cons_append, charListLt]
      have h' : d'.length = D'.length := by simpa using h
      by_cases h1 : c.toNat < C.toNat
      · simp only [if_pos h1]
      · simp only [if_neg h1]
        by_cases h2 : C.toNat < c.toNat
        · simp only [if_pos h2]
        · simp only [if_neg h2]
          exact ih D' h'

/-- On a stored `CURRENT_TIMESTAMP` text (ten date characters, then a
    space) and two ISO bounds sharing one date prefix (then a `T`), the
    range condition `start <= s AND s < end` can never hold: the comparison
    with either bound is decided at or before the separator, identically,
    because the space sorts below the `T`. -/
theorem stored_below_iso_window (s startB endB : String) (d w D u v : List Char)
    (hs : s.data = d ++ ' ' :: w) (hstart : startB.data = D ++ 'T' :: u)
    (hend : endB.data = D ++ 'T' :: v) (hlen : d.length = D.length) :
    (sqliteTextLe startB s && sqliteTextLt s endB) = false := by
  unfold sqliteTextLe sqliteTextLt
  rw [hs, hstart, hend]
  rw [charListLt_append_sep d D hlen ' ' 'T' (by decide) w u v]
  exact Bool.not_and_self _

/-- The shape of every `created_at` the program stores: SQLite's
    `CURRENT_TIMESTAMP` text `YYYY-MM-DD HH:MM:SS` — ten characters of
    date, a space, then the time. -/
def storedTsFormat (s : String) : Prop :=
  ∃ d w : List Char, s.data = d ++ ' ' :: w ∧ d.length = 10

/-- On program-stored data the day window of `getMessagesForDate` is empty
    for every chat and every date: a stored `CURRENT_TIMESTAMP` text never
    lies between the two `toISOString()` bounds under BINARY collation. -/
theorem storedTs_window_always_empty (db : DB) (chatId : String) (date : Nat)
    (hlen : (isoDateLabel date).data.length = 10)
    (hstored : ∀ m ∈ db.messages, storedTsFormat m.created_at) :
    db.getMessagesForDateRange chatId (startOfDayIso date) (endOfDayIso date)
      = [] ∧
    (DailySummarizer.getMessagesForDate db chatId date).totalCount = 0 ∧
    (DailySummarizer.getMessagesForDate db chatId date).messages = [] := by
  have hstartData : (startOfDayIso date).data =
      (isoDateLabel date).data ++ 'T' :: "00:00:00.000Z".data := by
    rw [startOfDayIso, String.data_append]
  have hendData : (endOfDayIso date).data =
      (isoDateLabel date).data ++ 'T' :: "23:59:59.999Z".data := by
    rw [endOfDayIso, String.data_append]
  have hfalse : ∀ m ∈ db.messages,
      ¬ (msgInRange chatId (startOfDayIso date) (endOfDayIso date) m = true) := by
    intro m hm hcontra
    obtain ⟨d, w, hsw, hdlen⟩ := hstored m hm
    have hwin := stored_below_iso_window m.created_at (startOfDayIso date)
      (endOfDayIso date) d w (isoDateLabel date).data "00:00:00.000Z".data
      "23:59:59.999Z".data hsw hstartData hendData (by rw [hdlen, hlen])
    unfold msgInRange at hcontra
    simp only [Bool.and_eq_true] at hcontra
    rw [hcontra.1.2, hcontra.2] at hwin
    cases hwin
  have hraw : db.getMessagesForDateRange chatId (startOfDayIso date)
      (endOfDayIso date) = [] := by
    unfold DB.getMessagesForDateRange
    rw [List.filter_eq_nil_iff.mpr hfalse]
    rfl
  refine ⟨hraw, ?_, ?_⟩
  · simp [DailySummarizer.getMessagesForDate, hraw]
  · simp [DailySummarizer.getMessagesForDate, hraw]

def c2User : User :=
  { user_id := "u", username := some "t", first_name := "T", last_name := none,
    is_opted_out := false }

def c2Msg : Message :=
  { chat_id := "c", message_id := "1", user_id := "u", message_type := .text,
    content := some "hi", file_id := none, reply_to_message_id := none,
    created_at := "2024-01-09 15:30:00" }

def c2DB : DB :=
  { chats := [], users := [c2User], messages := [c2Msg], transcripts := [] }

/-- C2 (code bug, evaluated at the failing input): a message created during
date 2024-01-09 (epoch day 19731) is stored with the `CURRENT_TIMESTAMP`
text `"2024-01-09 15:30:00"`; the claim requires it to be selected by the
day's window, but the stored text sorts below even the window's start
bound (the space at index 10 sorts below the `T` of the ISO bound), so the
query — and hence the assembled result — is empty. -/
theorem C2_window_failing_input :
    isoDateLabel 19731 = "2024-01-09" ∧
    List.isPrefixOf ("2024-01-09 ".data) c2Msg.created_at.data = true ∧
    (c2DB.getUser c2Msg.user_id).isSome = true ∧
    sqliteTextLt c2Msg.created_at (startOfDayIso 19731) = true ∧
    c2DB.getMessagesForDateRange "c" (startOfDayIso 19731) (endOfDayIso 19731)
      = [] ∧
    (DailySummarizer.getMessagesForDate c2DB "c" 19731).totalCount = 0 ∧
    (DailySummarizer.getMessagesForDate c2DB "c" 19731).messages = [] := by
  decide

/-! ## Claim C3: opt-out filtering and the unfiltered total -/

def c3UserA : User :=
  { user_id := "a", username := some "alice", first_name := "A",
    last_name := none, is_opted_out := false }

def c3UserB : User :=
  { user_id := "b", username := some "bob", first_name := "B",
    last_name := none, is_opted_out := true }

def c3MsgA : Message :=
  { chat_id := "c", message_id := "1", user_id := "a", message_type := .text,
    content := some "hi", file_id := none, reply_to_message_id := none,
    created_at := "2024-01-09 10:00:00" }

def c3MsgB : Message :=
  { chat_id := "c", message_id := "2", user_id := "b", message_type := .text,
    content := some "yo", file_id := none, reply_to_message_id := none,
    created_at := "2024-01-09 11:00:00" }

def c3DB : DB :=
  { chats := [], users := [c3UserA, c3UserB], messages := [c3MsgA, c3MsgB],
    transcripts := [] }

/-- C3 (code bug, evaluated at the failing input): two messages created
during date 2024-01-09 (epoch day 19731) are stored with `CURRENT_TIMESTAMP`
texts, one by an author who is opted out at generation time.  The claim
requires `totalCount = 2` — the unfiltered in-window count including the
opted-out author's message — and the other author's message among
`orderedMessages`; but the stored texts never satisfy the ISO-bound range
comparison, so the program returns `totalCount = 0` and an empty
`orderedMessages`. -/
theorem C3_totalCount_failing_input :
    isoDateLabel 19731 = "2024-01-09" ∧
    List.isPrefixOf ("2024-01-09 ".data) c3MsgA.created_at.data = true ∧
    List.isPrefixOf ("2024-01-09 ".data) c3MsgB.created_at.data = true ∧
    c3UserA.is_opted_out = false ∧ c3UserB.is_opted_out = true ∧
    (c3DB.getUser c3MsgA.user_id).isSome = true ∧
    (c3DB.getUser c3MsgB.user_id).isSome = true ∧
    (DailySummarizer.getMessagesForDate c3DB "c" 19731).totalCount = 0 ∧
    (DailySummarizer.getMessagesForDate c3DB "c" 19731).messages = [] := by
  decide

end Vladobot
